import Mathlib

/-!
Verification of the authorization, filtering and pagination core of the
Fastapi_project repository, as a shallow embedding in Lean 4.

The definitions below mirror, construct for construct, the Python source in
`server/auth.py`, `server/pagination.py`, `server/filters.py`,
`server/crud.py`, `server/schema.py` and `server/views.py`.  Database-backed
state (ORM objects, tables) is made explicit: an ORM object is represented by
the value of its owner field or by an association-list row, a table by a list
of (id, record) pairs, and a user's role rights (loaded by SQLAlchemy from the
`Role.rights` relationship) by an explicit list of `Right` records passed to
the evaluator.  Exceptions (`HTTPException`, `ValueError`, `AttributeError`,
`IndexError`) become explicit result constructors.
-/

namespace Server

/-- A row of the `Right` table (`server/models.py`, class `Right`): one
permission record for one resource model, with the same column defaults
(`owner_only`, `read`, `create`, `update`, `delete` all default `True`). -/
structure Right where
  model : String
  owner_only : Bool := true
  read : Bool := true
  create : Bool := true
  update : Bool := true
  delete : Bool := true
deriving Repr, DecidableEq

/-- The fields of a `User` row (`server/models.py`, class `User`) that the
evaluated code reads: the id (which is also `User._owner_field`), the unique
username, the role name and the registration timestamp (kept abstract as a
string). -/
structure Actor where
  id : Int
  username : String := ""
  role_name : String := "user"
  registered_at : String := ""
deriving Repr, DecidableEq

/-- The keyword arguments accepted by `check_permissions` (`server/auth.py`):
`owner_only` is truthy-or-absent, each action flag is either absent from
`kwargs` (`none`) or present with a boolean value. -/
structure Requested where
  owner_only : Bool := false
  read : Option Bool := none
  create : Option Bool := none
  update : Option Bool := none
  delete : Option Bool := none
deriving Repr, DecidableEq

/-- Outcome of a `check_permissions` call: normal return, an
`HTTPException(status, detail)`, the `ValueError` raised when the owner-only
check is requested without a target object, or the `AttributeError` Python
would raise dereferencing `user.id` on `None`. -/
inductive PermResult where
  | ok : PermResult
  | httpError (status : Nat) (detail : String) : PermResult
  | valueError (detail : String) : PermResult
  | attrError (detail : String) : PermResult
deriving Repr, DecidableEq

/-- The `anon` entry of `ROLE_RIGHTS_SCHEMA` (`server/config.py`): the static
rights synthesized for an unauthenticated caller by
`Right.get_rights_for_anon` (`server/models.py`). -/
def get_rights_for_anon : List Right :=
  [ { model := "User", owner_only := false, read := true, create := true,
      update := false, delete := false },
    { model := "Advertisement", owner_only := false, read := true,
      create := false, update := false, delete := false } ]

/-- Rights resolution at the top of `check_permissions` (`server/auth.py`
lines 58-62): anonymous callers get the static anon rights, authenticated
callers get their role's rights (`role.rights`, passed in explicitly here
since the source loads them from the database). -/
def resolveRights (user : Option Actor) (roleRights : List Right) : List Right :=
  match user with
  | none => get_rights_for_anon
  | some _ => roleRights

/-- One iteration of the action-flag loop of `check_permissions`
(`server/auth.py` line 78): `flag == kwargs[action] or flag` for a present
key, vacuously true for an absent key. -/
def flagOk (flag : Bool) (requested : Option Bool) : Bool :=
  match requested with
  | none => true
  | some v => (flag == v) || flag

/-- The whole action-flag loop of `check_permissions` (`server/auth.py`
lines 75-78): all present action flags must pass `flagOk`. -/
def actionsOk (r : Right) (req : Requested) : Bool :=
  flagOk r.read req.read && flagOk r.create req.create &&
    flagOk r.update req.update && flagOk r.delete req.delete

/-- Shallow embedding of `check_permissions` (`server/auth.py`).
`objOwnerValue` is `getattr(obj, model._owner_field)` for the supplied target
object, or `none` when `obj is None`. -/
def check_permissions (user : Option Actor) (roleRights : List Right)
    (modelName : String) (objOwnerValue : Option Int) (req : Requested) :
    PermResult :=
  let rights := resolveRights user roleRights
  match rights.filter (fun r => r.model == modelName) with
  | [] => .httpError 403 "You don't have permissions to access this resource"
  | right :: _ =>
    let ownerStep : PermResult :=
      if req.owner_only && right.owner_only then
        match objOwnerValue with
        | none => .valueError ("Owner_only check required object " ++ modelName)
        | some ownerValue =>
          match user with
          | none => .attrError "NoneType object has no attribute id"
          | some u =>
            if !(u.id == ownerValue) then
              .httpError 403 "Action is available only for the owner"
            else .ok
      else .ok
    match ownerStep with
    | .ok =>
      if actionsOk right req then .ok
      else if user.isNone then
        .httpError 401 "Token authorization credentials were not provided"
      else .httpError 403 "You don't have permissions to access this resource"
    | e => e

/-! ## Pagination (`server/pagination.py`) -/

/-- `VALUES_ON_PAGE` from `server/config.py` (default 5); the page size is
environment-configurable, so the embedding keeps it as the paginator's
`limit` field and theorems quantify over it. -/
def VALUES_ON_PAGE : Nat := 5

/-- The state of a `Paginator` object (`server/pagination.py`, `__init__`):
`quantity_objects` and `last_page` start as `None`, `page` comes from the
query parameters (default 1), `limit` is `VALUES_ON_PAGE`, `url` is the
request URL. -/
structure Paginator where
  quantity_objects : Option Nat := none
  page : Int
  limit : Nat := VALUES_ON_PAGE
  last_page : Option Int := none
  url : String
deriving Repr, DecidableEq

/-- `math.ceil(a / b)` for non-negative integers and a positive divisor, as
computed in `Paginator._calculate_offset`. -/
def ceil_div (a b : Nat) : Nat := (a + b - 1) / b

/-- `Paginator._calculate_offset` (`server/pagination.py` lines 34-45):
raises (`TypeError`) if `quantity_objects` was never set; otherwise computes
`last_page`, clamps `_page` down to `last_page` when it exceeds it, and
returns the offset `(page - 1 if page > 0 else 0) * limit` together with the
updated state. -/
def Paginator.calculate_offset (p : Paginator) :
    Except String (Paginator × Int) :=
  match p.quantity_objects with
  | none => .error "Attribute quantity_objects not defined"
  | some q =>
    let lastPage : Int := (ceil_div q p.limit : Nat)
    let newPage : Int := if p.page > lastPage then lastPage else p.page
    let offset : Int := (if newPage > 0 then newPage - 1 else 0) * (p.limit : Int)
    .ok ({ p with page := newPage, last_page := some lastPage }, offset)

/-- The literal `page=<n>` query-string fragment used by `_get_url` and
`_validate_url`. -/
def pageParam (n : Int) : String := "page=" ++ toString n

/-- Modelled from the spec: `Paginator._validate_url` rewrites the request
URL so that its `page` query parameter equals the paginator's current page.
The source delegates the parsing and re-encoding to Python's `urllib`
(external standard library: `urlparse`, `parse_qs`, `urlencode`); here the
rewrite is modelled directly on the query string: the existing `page=<k>`
pair is replaced, or a `page=<n>` pair is appended when absent. -/
def setPageParam (url : String) (page : Int) : String :=
  match url.splitOn "?" with
  | [base] => base ++ "?" ++ pageParam page
  | base :: query :: _ =>
    let pairs := query.splitOn "&"
    let replaced := pairs.map
      (fun s => if s.startsWith "page=" then pageParam page else s)
    let withPage :=
      if pairs.any (fun s => s.startsWith "page=") then replaced
      else replaced ++ [pageParam page]
    base ++ "?" ++ String.intercalate "&" withPage
  | [] => url

/-- `Paginator._get_url` (`server/pagination.py` lines 66-78): replace the
`page=<current>` fragment with `page=<page>` when the requested adjacent page
lies in `[1, last_page]`, else `None`.  `lastPage` is the value of
`self._last_page` (set by `_calculate_offset`). -/
def Paginator.get_url (p : Paginator) (lastPage : Int) (page : Int) :
    Option String :=
  if 1 ≤ page ∧ page ≤ lastPage then
    some (p.url.replace (pageParam p.page) (pageParam page))
  else none

/-- The page envelope built by `Paginator.get_paginated_page`
(`server/pagination.py` lines 56-64): the dictionary with keys `quantity`,
`current_page`, `previous`, `next`, `results`.  `quantity` mirrors
`self.quantity_objects`, which is `Option`-valued in the source (`None`
until assigned). -/
structure Page (α : Type) where
  quantity : Option Nat
  current_page : Int
  previous : Option String
  next : Option String
  results : List α
deriving Repr, DecidableEq

/-- `Paginator.get_paginated_page` (`server/pagination.py` lines 56-64):
normalizes the URL via `_validate_url`, then builds the envelope.  Comparing
against an unset `last_page` (`None`) in `_get_url` would raise a
`TypeError` in the source, modelled as the error case. -/
def Paginator.get_paginated_page (p : Paginator) (values : List α) :
    Except String (Page α) :=
  match p.last_page with
  | none => .error "TypeError: comparison between int and NoneType"
  | some lastPage =>
    let p1 := { p with url := setPageParam p.url p.page }
    .ok { quantity := p.quantity_objects,
          current_page := p.page,
          previous := p1.get_url lastPage (p.page - 1),
          next := p1.get_url lastPage (p.page + 1),
          results := values }

/-- The pagination flow of `BaseView.get_list` ∘ `Database.get_list`
(`server/views.py` lines 53-65, `server/crud.py` lines 33-47): construct the
paginator from the request URL and the requested page, assign the total row
count, compute the window (`paginate_query` calls `_calculate_offset`), then
build the envelope.  Returns the offset together with the envelope. -/
def paginate (url : String) (page : Int) (limit : Nat) (q : Nat)
    (values : List α) : Except String (Int × Page α) :=
  let p : Paginator :=
    { page := page, limit := limit, url := url, quantity_objects := some q }
  match p.calculate_offset with
  | .error e => .error e
  | .ok (p1, offset) =>
    match p1.get_paginated_page values with
    | .error e => .error e
    | .ok envelope => .ok (offset, envelope)

/-- Projection helpers used in claim statements. -/
def currentPageOf (r : Except String (Int × Page α)) : Option Int :=
  match r with
  | .ok (_, envelope) => some envelope.current_page
  | .error _ => none

def offsetOf (r : Except String (Int × Page α)) : Option Int :=
  match r with
  | .ok (offset, _) => some offset
  | .error _ => none

/-- The page-clamping rule as the specification words it: a requested page
above `lastPage` is clamped to `lastPage`, a requested page `≤ 0` is clamped
to `1`, anything in between is kept. -/
def clampPageSpec (p lastPage : Int) : Int :=
  if p ≤ 0 then 1 else if p > lastPage then lastPage else p

/-! ## Filters (`server/filters.py`, `server/schema.py`) -/

/-- Python runtime type of an ORM column (`field.type.python_type` in
`SearchFilter.get_filter_conditions`): the searched columns are `str` or
`int` typed. -/
inductive FieldType where
  | str : FieldType
  | int : FieldType
deriving Repr, DecidableEq

/-- One entry of a view's `search_fields` whitelist together with the
column's Python type. -/
structure SearchField where
  name : String
  type : FieldType
deriving Repr, DecidableEq

/-- A Python value of type `str` or `int`, as stored in a row or produced by
`_convert_searching_param`. -/
inductive PyVal where
  | str (v : String) : PyVal
  | int (v : Int) : PyVal
deriving Repr, DecidableEq

/-- Digit run of a Python integer literal after the first character: digits,
with single underscores allowed between digits. -/
def validIntTail : List Char → Bool
  | [] => true
  | '_' :: rest =>
    match rest with
    | [] => false
    | c :: r2 => c.isDigit && validIntTail r2
  | c :: rest => c.isDigit && validIntTail rest

/-- A Python integer literal body: at least one digit, then `validIntTail`. -/
def validIntBody (cs : List Char) : Bool :=
  match cs with
  | [] => false
  | c :: rest => c.isDigit && validIntTail rest

/-- Numeric value of a digit run (underscores removed). -/
def digitsVal (cs : List Char) : Nat :=
  cs.foldl (fun a c => a * 10 + (c.toNat - '0'.toNat)) 0

/-- Python's `int(s)` on a string: optional surrounding whitespace, optional
sign, then digits (underscores permitted between digits); `none` models the
`ValueError` raised on anything else. -/
def pyInt (s : String) : Option Int :=
  let cs := s.trim.data
  match cs with
  | '-' :: rest =>
    if validIntBody rest then
      some (-(digitsVal (rest.filter (fun c => c ≠ '_')) : Int))
    else none
  | '+' :: rest =>
    if validIntBody rest then
      some ((digitsVal (rest.filter (fun c => c ≠ '_')) : Int))
    else none
  | _ =>
    if validIntBody cs then
      some ((digitsVal (cs.filter (fun c => c ≠ '_')) : Int))
    else none

/-- `SearchFilter._convert_searching_param` (`server/filters.py` lines
67-82): the query value is a `str`; a `str`-typed field keeps it as is, an
`int`-typed field converts with `int(...)`, returning `None` on
`ValueError`. -/
def convert_searching_param (search_param : String) (field_type : FieldType) :
    Option PyVal :=
  match field_type with
  | .str => some (.str search_param)
  | .int => (pyInt search_param).map .int

/-- A SQLAlchemy condition as built by `SearchFilter`: the literal `True`
appended when no search parameter is given, `field.icontains(term)` for a
string field, `field == n` for an integer field. -/
inductive Condition where
  | trueLit : Condition
  | icontains (field : String) (term : String) : Condition
  | eqInt (field : String) (value : Int) : Condition
deriving Repr, DecidableEq

/-- `SearchFilter.get_filter_conditions` (`server/filters.py` lines 84-102):
no parameter gives `[True]`; otherwise, per whitelisted field in order,
convert the parameter to the field's type (skipping on failure) and build
the dispatched condition (`icontains` for `str`, equality for `int`). -/
def SearchFilter.get_filter_conditions (search_fields : List SearchField)
    (searching_param : Option String) : List Condition :=
  match searching_param with
  | none => [.trueLit]
  | some param =>
    search_fields.filterMap (fun f =>
      match convert_searching_param param f.type with
      | none => none
      | some (.str v) => some (.icontains f.name v)
      | some (.int v) => some (.eqInt f.name v))

/-- A database row, for evaluating built conditions: field name to value. -/
def Row : Type := List (String × PyVal)

def lookupField (row : Row) (f : String) : Option PyVal :=
  match row.find? (fun p => p.1 == f) with
  | some p => some p.2
  | none => none

/-- `needle.isPrefixOf haystack` on character lists. -/
def charsPrefix : List Char → List Char → Bool
  | [], _ => true
  | _ :: _, [] => false
  | a :: as, b :: bs => a == b && charsPrefix as bs

/-- Substring containment on character lists. -/
def charsContain (needle : List Char) : List Char → Bool
  | [] => needle.isEmpty
  | c :: rest => charsPrefix needle (c :: rest) || charsContain needle rest

/-- Semantics of one built condition on a row: `icontains` is
case-insensitive containment, integer conditions are equality, `True`
matches everything; a condition on a field the row lacks (or of the wrong
runtime type) matches nothing. -/
def evalCondition (row : Row) (c : Condition) : Bool :=
  match c with
  | .trueLit => true
  | .icontains f term =>
    match lookupField row f with
    | some (.str v) => charsContain term.toLower.data v.toLower.data
    | _ => false
  | .eqInt f n =>
    match lookupField row f with
    | some (.int v) => v == n
    | _ => false

/-- The `WHERE` clause built by `FilterSet.filter_query` (`server/filters.py`
line 192): `or_(False, *conditions)` evaluated on a row — the disjunction of
the built conditions, starting from `False`. -/
def filter_query_matches (search_fields : List SearchField)
    (searching_param : Option String) (row : Row) : Bool :=
  (SearchFilter.get_filter_conditions search_fields searching_param).foldl
    (fun acc c => acc || evalCondition row c) false

/-- The search predicate exactly as the specification words it: absent term
matches everything; a present term matches a row iff some whitelisted field
to whose type the term coerces matches it — case-insensitive containment for
string fields, exact equality for integer fields, fields with failed
coercion skipped; if the term coerces to no field, nothing matches. -/
def searchSpecMatches (search_fields : List SearchField)
    (searching_param : Option String) (row : Row) : Bool :=
  match searching_param with
  | none => true
  | some t =>
    search_fields.any (fun f =>
      match f.type with
      | .str =>
        match lookupField row f.name with
        | some (.str v) => charsContain t.toLower.data v.toLower.data
        | _ => false
      | .int =>
        match pyInt t with
        | some n =>
          match lookupField row f.name with
          | some (.int v) => v == n
          | _ => false
        | none => false)

/-- An ordering condition (`server/filters.py`, `OrderingField`): a column
name and the direction string. -/
structure OrderingField where
  field : String
  direction : String
deriving Repr, DecidableEq

/-- `OrderingFilter._check_field` (`server/filters.py` lines 121-134):
strips a leading `-` (descending) or `+` (ascending), keeps the token iff it
names a declared column.  Indexing `field[0]` on an empty token raises
`IndexError` in Python, modelled as the error case. -/
def OrderingFilter.check_field (columns : List String) (field : String) :
    Except String (Option OrderingField) :=
  match field.data with
  | [] => .error "IndexError: string index out of range"
  | c :: rest =>
    let dirAndField : String × String :=
      if c == '-' then ("desc", String.mk rest)
      else if c == '+' then ("asc", String.mk rest)
      else ("asc", field)
    if columns.contains dirAndField.2 then
      .ok (some { field := dirAndField.2, direction := dirAndField.1 })
    else .ok none

/-- The loop of `OrderingFilter.get_filter_conditions` (`server/filters.py`
lines 136-151): validate each token in sequence, skip rejected ones, keep
accepted ones in order; a raised `IndexError` aborts. -/
def orderingLoop (columns : List String) : List String →
    Except String (List OrderingField)
  | [] => .ok []
  | f :: rest => do
    let v ← OrderingFilter.check_field columns f
    let others ← orderingLoop columns rest
    match v with
    | none => .ok others
    | some o => .ok (o :: others)

/-- `OrderingFilter.get_filter_conditions` (`server/filters.py` lines
136-151): `None` ordering parameters give no conditions, otherwise run the
validation loop. -/
def OrderingFilter.get_filter_conditions (columns : List String)
    (ordering_params : Option (List String)) :
    Except String (List OrderingField) :=
  match ordering_params with
  | none => .ok []
  | some fields => orderingLoop columns fields

/-- Python's `str.replace(" ", "")`: remove every space character. -/
def removeSpaces (s : String) : String :=
  String.mk (s.data.filter (fun c => c ≠ ' '))

/-- Python's `str.split(",")` on the character list: every comma separates,
so stray or trailing commas yield empty segments (`"".split(",") == [""]`,
`"id,".split(",") == ["id", ""]`). -/
def splitOnComma : List Char → List (List Char)
  | [] => [[]]
  | ',' :: rest => [] :: splitOnComma rest
  | c :: rest =>
    match splitOnComma rest with
    | [] => [[c]]
    | g :: gs => (c :: g) :: gs

/-- `QueryParams.convert_order_by` (`server/schema.py` lines 98-101): join
the raw query values, drop spaces, split on commas. -/
def convert_order_by (value : List String) : List String :=
  (splitOnComma (removeSpaces (String.join value)).data).map String.mk

/-- Total spec-side reading of one ordering token: strip a leading `+`/`-`
and keep the token iff it names a declared column — never an error, an
empty or unrecognized token is silently dropped. -/
def parseTokenSpec (columns : List String) (field : String) :
    Option OrderingField :=
  match field.data with
  | [] => none
  | c :: rest =>
    let dirAndField : String × String :=
      if c == '-' then ("desc", String.mk rest)
      else if c == '+' then ("asc", String.mk rest)
      else ("asc", field)
    if columns.contains dirAndField.2 then
      some { field := dirAndField.2, direction := dirAndField.1 }
    else none

/-- The declared columns of the `User` table (`server/models.py`). -/
def userColumns : List String :=
  ["id", "role_name", "username", "password", "registered_at"]

/-- The declared columns of the `Advertisement` table
(`server/models.py`). -/
def advertisementColumns : List String :=
  ["id", "id_user", "title", "description", "price", "created_at",
   "updated_at"]

/-! ## Record access and views (`server/crud.py`, `server/views.py`) -/

/-- `Database.get_detail` (`server/crud.py` lines 49-59): primary-key lookup
in the table; a missing record raises `HTTPException(400, ...)` with the
f-string detail. -/
def Database.get_detail (tablename : String) (table : List (Int × α))
    (id : Int) : Except (Nat × String) α :=
  match table.find? (fun p => p.1 == id) with
  | some p => .ok p.2
  | none => .error (400, tablename ++ " with id=" ++ toString id ++ " not found")

/-- Observable steps of a view handler, used to state which subsystems a
request touches and in which order. -/
inductive Event where
  | permCheck : Event
  | dbLookup : Event
deriving Repr, DecidableEq

/-- The serialized form of a user produced by `User.as_dict`
(`server/models.py` lines 119-126). -/
structure UserDict where
  id : Int
  username : String
  role : String
  registered_at : String
deriving Repr, DecidableEq

def Actor.as_dict (u : Actor) : UserDict :=
  { id := u.id, username := u.username, role := u.role_name,
    registered_at := u.registered_at }

/-- Outcome of a view handler: a serialized record, an HTTP error, or an
internal exception (`ValueError`/`AttributeError`). -/
inductive ViewResult where
  | ok (value : UserDict) : ViewResult
  | err (status : Nat) (detail : String) : ViewResult
  | invalid (detail : String) : ViewResult
deriving Repr, DecidableEq

/-- `BaseView.get_detail` (`server/views.py` lines 67-70) for the `User`
model: run `check_permissions(read=True)` first, then `Database.get_detail`,
and record the steps taken. -/
def BaseView.get_detail (user : Option Actor) (roleRights : List Right)
    (table : List (Int × Actor)) (id : Int) : List Event × ViewResult :=
  match check_permissions user roleRights "User" none { read := some true } with
  | .ok =>
    match Database.get_detail "User" table id with
    | .ok obj => ([.permCheck, .dbLookup], .ok obj.as_dict)
    | .error (s, d) => ([.permCheck, .dbLookup], .err s d)
  | .httpError s d => ([.permCheck], .err s d)
  | .valueError d => ([.permCheck], .invalid d)
  | .attrError d => ([.permCheck], .invalid d)

/-- `UserView.get_detail` (`server/views.py` lines 90-94): an authenticated
caller asking for their own id gets `self.user.as_dict` back immediately;
every other request falls through to `BaseView.get_detail`. -/
def UserView.get_detail (user : Option Actor) (roleRights : List Right)
    (table : List (Int × Actor)) (id : Int) : List Event × ViewResult :=
  match user with
  | some u =>
    if u.id == id then ([], .ok u.as_dict)
    else BaseView.get_detail user roleRights table id
  | none => BaseView.get_detail none roleRights table id

/-! ## Theorems about the permission evaluator -/

/-- The action-flag test as the specification words it: a requested flag is
permitted iff the stored flag is true OR the requested value equals the
stored value; an absent flag imposes nothing. -/
def permittedSpec (stored : Bool) (requested : Option Bool) : Prop :=
  match requested with
  | none => True
  | some v => stored = true ∨ v = stored

lemma flagOk_iff_permittedSpec (b : Bool) (r : Option Bool) :
    flagOk b r = true ↔ permittedSpec b r := by
  cases r with
  | none => simp [flagOk, permittedSpec]
  | some v => cases b <;> cases v <;> simp [flagOk, permittedSpec]

/-- C5: whenever no Right record resolves for the caller's role (anonymous
included) and the requested resource kind, `check_permissions` always raises
Forbidden (403), whatever actions were requested: no fail-open path exists. -/
theorem C5_no_right_denies (user : Option Actor) (roleRights : List Right)
    (modelName : String) (objOwnerValue : Option Int) (req : Requested)
    (h : (resolveRights user roleRights).filter
        (fun r => r.model == modelName) = []) :
    check_permissions user roleRights modelName objOwnerValue req =
      .httpError 403 "You don't have permissions to access this resource" := by
  simp [check_permissions, h]

/-- Witness for C5 at an anonymous caller and the `Token` resource kind, for
which the static anon rights hold no record. -/
theorem C5_no_right_denies_witness :
    check_permissions none [] "Token" none {} =
      .httpError 403 "You don't have permissions to access this resource" :=
  C5_no_right_denies none [] "Token" none {} rfl

/-- C6: with an effective Right resolved and the owner-only check not in
play, `check_permissions` permits the request iff every requested action
flag satisfies "stored flag true OR requested value equals stored value";
in particular requesting a flag as `True` succeeds iff the stored flag is
`True`, and a flag requested as `False` never by itself denies. -/
theorem C6_flag_gate (user : Option Actor) (roleRights : List Right)
    (modelName : String) (objOwnerValue : Option Int) (req : Requested)
    (right : Right) (rest : List Right)
    (hfilter : (resolveRights user roleRights).filter
        (fun r => r.model == modelName) = right :: rest)
    (hoo : req.owner_only = false) :
    (check_permissions user roleRights modelName objOwnerValue req = .ok ↔
      (permittedSpec right.read req.read ∧ permittedSpec right.create req.create ∧
       permittedSpec right.update req.update ∧ permittedSpec right.delete req.delete)) ∧
    (∀ b : Bool, (permittedSpec b (some true) ↔ b = true) ∧
      permittedSpec b (some false)) := by
  constructor
  · have hiff : check_permissions user roleRights modelName objOwnerValue req = .ok ↔
        actionsOk right req = true := by
      cases hA : actionsOk right req
      · cases user <;> simp [check_permissions, hfilter, hoo, hA]
      · simp [check_permissions, hfilter, hoo, hA]
    rw [hiff]
    simp only [actionsOk, Bool.and_eq_true, flagOk_iff_permittedSpec]
    tauto
  · intro b
    cases b <;> simp [permittedSpec]

/-- Witness for C6: a fully permissive Right on `User` lets an actor
requesting `read=True` through. -/
theorem C6_flag_gate_witness :
    check_permissions (some { id := 1 }) [{ model := "User" }] "User" none
      { read := some true } = .ok :=
  ((C6_flag_gate (some { id := 1 }) [{ model := "User" }] "User" none
      { read := some true } { model := "User" } [] rfl rfl).1).mpr
    ⟨Or.inl rfl, trivial, trivial, trivial⟩

/-- C1 counterexample: an actor who IS the owner (id 1, owner field 1) of a
target object, under a Right with `owner_only = true` but stored
`update = false`, requests `ownerOnly` together with `update` and is
REJECTED with 403 — the claim states the call is allowed independently of
the stored `update` flag. -/
theorem C1_counterexample :
    check_permissions (some { id := 1 })
        [{ model := "Advertisement", owner_only := true, update := false }]
        "Advertisement" (some 1) { owner_only := true, update := some true } =
      .httpError 403 "You don't have permissions to access this resource" ∧
    check_permissions (some { id := 1 })
        [{ model := "Advertisement", owner_only := true, update := false }]
        "Advertisement" (some 1) { owner_only := true, update := some true } ≠
      .ok :=
  ⟨rfl, by decide⟩

/-- C1 amended: for an effective Right with `owner_only = true` and a request
for `ownerOnly` together with `update` on a supplied target object, a
non-owner actor fails with Forbidden regardless of the stored `update` flag,
while an owner actor is allowed iff the stored `update` flag is true (the
flag gate still applies after the ownership check). -/
theorem C1_owner_update_amended (u : Actor) (roleRights : List Right)
    (modelName : String) (ownerValue : Int) (req : Requested)
    (right : Right) (rest : List Right)
    (hfilter : (resolveRights (some u) roleRights).filter
        (fun r => r.model == modelName) = right :: rest)
    (hro : right.owner_only = true) (hoo : req.owner_only = true)
    (hupd : req.update = some true) (hr : req.read = none)
    (hc : req.create = none) (hd : req.delete = none) :
    (u.id ≠ ownerValue →
      check_permissions (some u) roleRights modelName (some ownerValue) req =
        .httpError 403 "Action is available only for the owner") ∧
    (u.id = ownerValue →
      (check_permissions (some u) roleRights modelName (some ownerValue) req =
        .ok ↔ right.update = true)) := by
  constructor
  · intro hne
    have hbeq : (u.id == ownerValue) = false := by simp [hne]
    simp [check_permissions, hfilter, hro, hoo, hbeq]
  · intro heq
    have hbeq : (u.id == ownerValue) = true := by simp [heq]
    cases hflag : right.update <;>
      simp [check_permissions, hfilter, hro, hoo, hbeq, actionsOk, flagOk,
        hupd, hr, hc, hd, hflag]

/-- Witness for the amended C1: a non-owner (id 2 against owner field 1) is
rejected with the owner-only Forbidden message. -/
theorem C1_owner_update_amended_witness :
    check_permissions (some { id := 2 })
        [{ model := "Advertisement", owner_only := true, update := false }]
        "Advertisement" (some 1) { owner_only := true, update := some true } =
      .httpError 403 "Action is available only for the owner" :=
  (C1_owner_update_amended { id := 2 }
      [{ model := "Advertisement", owner_only := true, update := false }]
      "Advertisement" 1 { owner_only := true, update := some true }
      { model := "Advertisement", owner_only := true, update := false } []
      rfl rfl rfl rfl rfl rfl rfl).1 (by decide)

/-- C2 counterexample: an anonymous caller (actor `None`) asking about a
resource kind with no resolvable Right (`Token`) fails with Forbidden 403,
not Unauthenticated 401 — so the 401/403 distinction does not hold on the
no-Right failure path. -/
theorem C2_counterexample :
    check_permissions none [] "Token" none {} =
      .httpError 403 "You don't have permissions to access this resource" ∧
    check_permissions none [] "Token" none {} ≠
      .httpError 401 "Token authorization credentials were not provided" :=
  ⟨rfl, by decide⟩

/-- C2 amended: on the action-flag failure path (an effective Right resolved,
owner-only not requested, some requested flag rejected) the error is 401 for
an anonymous actor and 403 for an authenticated one; but on the no-Right
path the error is Forbidden 403 even for an anonymous actor. -/
theorem C2_anon_distinction_amended (user : Option Actor)
    (roleRights : List Right) (modelName : String)
    (objOwnerValue : Option Int) (req : Requested) :
    ((resolveRights user roleRights).filter
        (fun r => r.model == modelName) = [] →
      check_permissions user roleRights modelName objOwnerValue req =
        .httpError 403 "You don't have permissions to access this resource") ∧
    (∀ right rest,
      (resolveRights user roleRights).filter
          (fun r => r.model == modelName) = right :: rest →
      req.owner_only = false → actionsOk right req = false →
      check_permissions user roleRights modelName objOwnerValue req =
        if user.isNone then
          .httpError 401 "Token authorization credentials were not provided"
        else
          .httpError 403 "You don't have permissions to access this resource") := by
  constructor
  · intro h
    simp [check_permissions, h]
  · intro right rest hfilter hoo hA
    cases user <;> simp [check_permissions, hfilter, hoo, hA]

/-- Witness for the amended C2: an anonymous caller requesting `update=True`
on `User` (anon stored `update=false`) receives 401. -/
theorem C2_anon_distinction_amended_witness :
    check_permissions none [] "User" none { update := some true } =
      .httpError 401 "Token authorization credentials were not provided" :=
  (C2_anon_distinction_amended none [] "User" none { update := some true }).2
    { model := "User", owner_only := false, read := true, create := true,
      update := false, delete := false } [] rfl rfl rfl

/-! ## Theorems about the paginator -/

lemma ceil_div_pos {q l : Nat} (hq : 0 < q) (hl : 0 < l) :
    1 ≤ ceil_div q l := by
  unfold ceil_div
  rw [Nat.le_div_iff_mul_le hl]
  omega

lemma ceil_div_zero {l : Nat} (hl : 0 < l) : ceil_div 0 l = 0 := by
  unfold ceil_div
  exact Nat.div_eq_of_lt (by omega)

/-- C3 counterexample: with 7 total rows (page size 5, so `lastPage = 2`) and
requested page 0, the envelope reports `current_page = 0` — not the value 1
that clamping the request into `[1, lastPage]` would give — while the offset
is forced to 0, so the offset is not `(current_page - 1) * pageSize`
either. -/
theorem C3_counterexample :
    currentPageOf (paginate "x" 0 5 7 ([] : List Nat)) = some 0 ∧
    offsetOf (paginate "x" 0 5 7 ([] : List Nat)) = some 0 ∧
    clampPageSpec 0 ((ceil_div 7 5 : Nat) : Int) = 1 ∧
    currentPageOf (paginate "x" 0 5 7 ([] : List Nat)) ≠
      some (clampPageSpec 0 ((ceil_div 7 5 : Nat) : Int)) :=
  ⟨rfl, rfl, rfl, by decide⟩

/-- C3 amended: the paginator clamps the requested page only from above.
For `totalCount > 0` and a requested page `p ≥ 1` (the range the request
schema admits), the reported `current_page` is `min p lastPage` with
`lastPage = ceil(totalCount / pageSize)`, the offset is
`(current_page - 1) * pageSize`, and the whole result — the page envelope
with its `previous`/`next` URL computation included — equals the one
computed for the clamped page, so the clamped value, not the originally
requested `p`, drives all of it; for a requested page `p ≤ 0` the offset is
forced to 0 but `current_page` reports the unclamped `p`. -/
theorem C3_clamp_amended (url : String) (limit q : Nat) (p : Int)
    (values : List Nat) (hq : 0 < q) (hl : 0 < limit) :
    (1 ≤ p →
      currentPageOf (paginate url p limit q values) =
        some (min p ((ceil_div q limit : Nat) : Int)) ∧
      offsetOf (paginate url p limit q values) =
        some ((min p ((ceil_div q limit : Nat) : Int) - 1) * (limit : Int)) ∧
      paginate url p limit q values =
        paginate url (min p ((ceil_div q limit : Nat) : Int)) limit q values) ∧
    (p ≤ 0 →
      currentPageOf (paginate url p limit q values) = some p ∧
      offsetOf (paginate url p limit q values) = some 0) := by
  have h1 : (1 : Int) ≤ ((ceil_div q limit : Nat) : Int) := by
    exact_mod_cast ceil_div_pos hq hl
  constructor
  · intro hp
    by_cases hgt : p > ((ceil_div q limit : Nat) : Int)
    · have hmin : min p ((ceil_div q limit : Nat) : Int) =
          ((ceil_div q limit : Nat) : Int) := min_eq_right (le_of_lt hgt)
      have hpos : ((ceil_div q limit : Nat) : Int) > 0 := by omega
      rw [hmin]
      refine ⟨?_, ?_, ?_⟩ <;>
        simp [paginate, Paginator.calculate_offset,
          Paginator.get_paginated_page, currentPageOf, offsetOf, hgt, hpos]
    · have hle : p ≤ ((ceil_div q limit : Nat) : Int) := le_of_not_lt hgt
      have hmin : min p ((ceil_div q limit : Nat) : Int) = p := min_eq_left hle
      have hpos : p > 0 := by omega
      rw [hmin]
      refine ⟨?_, ?_, rfl⟩ <;>
        simp [paginate, Paginator.calculate_offset,
          Paginator.get_paginated_page, currentPageOf, offsetOf, hgt, hpos]
  · intro hp0
    have hngt : ¬(p > ((ceil_div q limit : Nat) : Int)) := by omega
    have hnpos : ¬(p > 0) := by omega
    constructor <;>
      simp [paginate, Paginator.calculate_offset,
        Paginator.get_paginated_page, currentPageOf, offsetOf, hngt, hnpos]

/-- Witness for the amended C3: 12 rows, page size 5 (`lastPage = 3`),
requested page 9 — reported page 3, offset 10, and the full result
(prev/next URLs included) identical to requesting page 3 directly; and with
7 rows, requested page 0 — reported page 0 with offset 0. -/
theorem C3_clamp_amended_witness :
    currentPageOf (paginate "x" 9 5 12 ([] : List Nat)) = some 3 ∧
    offsetOf (paginate "x" 9 5 12 ([] : List Nat)) = some 10 ∧
    paginate "x" 9 5 12 ([] : List Nat) = paginate "x" 3 5 12 ([] : List Nat) ∧
    currentPageOf (paginate "x" 0 5 7 ([] : List Nat)) = some 0 ∧
    offsetOf (paginate "x" 0 5 7 ([] : List Nat)) = some 0 := by
  have h9 := (C3_clamp_amended "x" 5 12 9 [] (by decide) (by decide)).1
    (by decide)
  have h0 := (C3_clamp_amended "x" 5 7 0 [] (by decide) (by decide)).2
    (by decide)
  have hm : min (9 : Int) ((ceil_div 12 5 : Nat) : Int) = 3 :=
    min_eq_right (by decide)
  rw [hm] at h9
  exact ⟨h9.1, h9.2.1.trans (by decide), h9.2.2, h0.1, h0.2⟩

/-- C4 counterexample: with 0 total rows and the default requested page 1,
the envelope reports `current_page = 0`, not 1 as the claim states. -/
theorem C4_counterexample :
    currentPageOf (paginate "x" 1 5 0 ([] : List Nat)) = some 0 ∧
    currentPageOf (paginate "x" 1 5 0 ([] : List Nat)) ≠ some 1 :=
  ⟨rfl, by decide⟩

/-- C4 amended: with 0 total rows the window and envelope computation
succeeds with no error: offset 0, `previous = None`, `next = None`, empty
results passed through — but the reported `current_page` is `min p 0`
(so 0 for any requested page `p ≥ 1`, the computed `lastPage`), not 1. -/
theorem C4_empty_amended (url : String) (limit : Nat) (p : Int)
    (values : List Nat) (hl : 0 < limit) :
    paginate url p limit 0 values =
      .ok (0, { quantity := some 0, current_page := min p 0,
                previous := none, next := none, results := values }) := by
  have hcd : ceil_div 0 limit = 0 := ceil_div_zero hl
  by_cases hp : p > 0
  · have hmin : min p 0 = 0 := min_eq_right (le_of_lt hp)
    simp [paginate, Paginator.calculate_offset, Paginator.get_paginated_page,
      Paginator.get_url, hcd, hp, hmin]
  · have hmin : min p 0 = p := min_eq_left (le_of_not_lt hp)
    simp [paginate, Paginator.calculate_offset, Paginator.get_paginated_page,
      Paginator.get_url, hcd, hp, hmin]
    omega

/-- Witness for the amended C4: the empty-table envelope at page 1, size 5. -/
theorem C4_empty_amended_witness :
    paginate "x" 1 5 0 ([] : List Nat) =
      .ok (0, { quantity := some 0, current_page := 0,
                previous := none, next := none, results := [] }) := by
  have h := C4_empty_amended "x" 5 1 [] (by decide)
  have h2 : min (1 : Int) 0 = 0 := min_eq_right (by omega)
  rw [h2] at h
  exact h

/-! ## Theorems about the filter builders -/

lemma check_field_eq_spec (columns : List String) (t : String) (ht : t ≠ "") :
    OrderingFilter.check_field columns t = .ok (parseTokenSpec columns t) := by
  cases t with
  | mk cs =>
    cases cs with
    | nil => exact absurd rfl ht
    | cons c rest =>
      simp only [OrderingFilter.check_field, parseTokenSpec, apply_ite Except.ok]

lemma orderingLoop_eq_spec (columns : List String) (tokens : List String)
    (h : ∀ t ∈ tokens, t ≠ "") :
    orderingLoop columns tokens =
      .ok (tokens.filterMap (parseTokenSpec columns)) := by
  induction tokens with
  | nil => rfl
  | cons t rest ih =>
    have ht : t ≠ "" := h t (by simp)
    have hrest := ih (fun x hx => h x (by simp [hx]))
    simp only [orderingLoop, check_field_eq_spec columns t ht, hrest,
      Except.bind, List.filterMap_cons]
    cases parseTokenSpec columns t <;> rfl

/-- C7 counterexample: the raw `order_by` value `"id,"` is converted by the
request schema into the token list `["id", ""]`, and the ordering builder
raises `IndexError` on the empty token instead of dropping it. -/
theorem C7_counterexample :
    convert_order_by ["id,"] = ["id", ""] ∧
    OrderingFilter.get_filter_conditions userColumns (some ["id", ""]) =
      .error "IndexError: string index out of range" ∧
    OrderingFilter.get_filter_conditions userColumns
        (some (convert_order_by ["id,"])) =
      .error "IndexError: string index out of range" :=
  ⟨rfl, rfl, rfl⟩

/-- C7 amended: for any token sequence whose tokens are all nonempty, the
ordering builder never raises: each token optionally prefixed `+`/`-` that
does not name a declared column is silently dropped, and the recognized
tokens are applied in their given sequence; an empty token (as produced by a
stray comma in `order_by`) however raises `IndexError`. -/
theorem C7_ordering_amended (columns : List String) (tokens : List String)
    (h : ∀ t ∈ tokens, t ≠ "") :
    OrderingFilter.get_filter_conditions columns (some tokens) =
      .ok (tokens.filterMap (parseTokenSpec columns)) :=
  orderingLoop_eq_spec columns tokens h

/-- Witness for the amended C7: a descending token, an unknown token and an
ascending token over the Advertisement columns. -/
theorem C7_ordering_amended_witness :
    OrderingFilter.get_filter_conditions advertisementColumns
        (some ["-id", "bogus", "+title"]) =
      .ok [{ field := "id", direction := "desc" },
           { field := "title", direction := "asc" }] := by
  have h := C7_ordering_amended advertisementColumns ["-id", "bogus", "+title"]
    (by decide)
  rw [h]
  rfl

lemma foldl_or_eq_any (row : Row) (l : List Condition) (b : Bool) :
    l.foldl (fun acc c => acc || evalCondition row c) b =
      (b || l.any (evalCondition row)) := by
  induction l generalizing b with
  | nil => simp
  | cons c cs ih => simp [List.foldl_cons, ih, Bool.or_assoc, List.any_cons]

lemma any_filterMap {α β : Type} (g : α → Option β) (p : β → Bool)
    (l : List α) :
    (l.filterMap g).any p =
      l.any (fun a => match g a with | some b => p b | none => false) := by
  induction l with
  | nil => rfl
  | cons a as ih => cases hg : g a <;> simp [List.filterMap_cons, hg, ih]

/-- C8: the predicate produced by `FilterSet.filter_query` from the search
filter coincides, on every row, with the reference predicate the
specification describes: match-all when the term is absent; otherwise the OR
over the whitelisted fields whose type the term coerces to (case-insensitive
containment for string fields, exact equality for integer fields, failed
coercions skipped silently), hence always-false when the term coerces to no
whitelisted field — and the builder is a total function, never an error. -/
theorem C8_search_refinement (search_fields : List SearchField)
    (searching_param : Option String) (row : Row) :
    filter_query_matches search_fields searching_param row =
      searchSpecMatches search_fields searching_param row := by
  cases searching_param with
  | none => rfl
  | some t =>
    show (SearchFilter.get_filter_conditions search_fields (some t)).foldl
        (fun acc c => acc || evalCondition row c) false = _
    rw [foldl_or_eq_any, Bool.false_or]
    simp only [SearchFilter.get_filter_conditions, searchSpecMatches]
    rw [any_filterMap]
    congr 1
    funext f
    cases hft : f.type with
    | str => simp [convert_searching_param, hft, evalCondition]
    | int =>
      cases hpi : pyInt t with
      | none => simp [convert_searching_param, hft, hpi]
      | some n => simp [convert_searching_param, hft, hpi, evalCondition]

/-! ## Theorems about the record access layer and the user-detail view -/

/-- C9: for every resource kind and id, `get_detail` fails with
`HTTPException` status 400 (the deliberate NotFound signal, not 404) when no
record with that id exists, and returns the record otherwise. -/
theorem C9_get_detail_not_found {α : Type} (tablename : String)
    (table : List (Int × α)) (id : Int) :
    (table.find? (fun p => p.1 == id) = none →
      Database.get_detail tablename table id =
        .error (400, tablename ++ " with id=" ++ toString id ++ " not found")) ∧
    (∀ v, table.find? (fun p => p.1 == id) = some v →
      Database.get_detail tablename table id = .ok v.2) := by
  constructor
  · intro h
    simp [Database.get_detail, h]
  · intro v h
    simp [Database.get_detail, h]

/-- Witness for C9: a missing id in an empty `User` table gives the 400
error with the f-string detail, and a present id is returned. -/
theorem C9_get_detail_not_found_witness :
    Database.get_detail "User" ([] : List (Int × Nat)) 5 =
      .error (400, "User with id=5 not found") ∧
    Database.get_detail "User" [(1, 7)] 1 = .ok 7 :=
  ⟨(C9_get_detail_not_found "User" [] 5).1 rfl,
   (C9_get_detail_not_found "User" [(1, 7)] 1).2 (1, 7) rfl⟩

/-- C10: an authenticated caller requesting their own user id gets their own
record back with no permission check and no database lookup (the rights data
is never read); for any other id the read-permission check runs first,
before any record lookup. -/
theorem C10_user_get_detail_own (u : Actor) (roleRights : List Right)
    (table : List (Int × Actor)) (id : Int) :
    (u.id = id →
      UserView.get_detail (some u) roleRights table id = ([], .ok u.as_dict)) ∧
    (u.id ≠ id →
      (UserView.get_detail (some u) roleRights table id).1.head? =
          some Event.permCheck ∧
      ((UserView.get_detail (some u) roleRights table id).1 =
          [Event.permCheck] ∨
       (UserView.get_detail (some u) roleRights table id).1 =
          [Event.permCheck, Event.dbLookup])) := by
  constructor
  · intro h
    simp [UserView.get_detail, h]
  · intro h
    have hne : (u.id == id) = false := by simp [h]
    cases hcp : check_permissions (some u) roleRights "User" none
        { read := some true } with
    | ok =>
      cases hdb : Database.get_detail "User" table id with
      | ok obj => simp [UserView.get_detail, BaseView.get_detail, hne, hcp, hdb]
      | error e =>
        obtain ⟨s, d⟩ := e
        simp [UserView.get_detail, BaseView.get_detail, hne, hcp, hdb]
    | httpError s d => simp [UserView.get_detail, BaseView.get_detail, hne, hcp]
    | valueError d => simp [UserView.get_detail, BaseView.get_detail, hne, hcp]
    | attrError d => simp [UserView.get_detail, BaseView.get_detail, hne, hcp]

/-- Witness for C10: caller id 1 fetching id 1 bypasses everything; fetching
id 2 hits the permission check first. -/
theorem C10_user_get_detail_own_witness :
    UserView.get_detail (some { id := 1 }) [] [] 1 =
      ([], .ok (Actor.as_dict { id := 1 })) ∧
    (UserView.get_detail (some { id := 1 }) [] [] 2).1.head? =
      some Event.permCheck :=
  ⟨(C10_user_get_detail_own { id := 1 } [] [] 1).1 rfl,
   ((C10_user_get_detail_own { id := 1 } [] [] 2).2 (by decide)).1⟩

end Server
